import Mathlib

/-!
Shallow embedding of the vote/stream coordination layer of the repository:
the client vote handlers of `src/src/components/message-actions.tsx`, the
vote HTTP route of `src/src/app/api/vote/route.ts`, and the stream-terminal
callbacks of the `Chat` component (`src/unnamed/part_002`).
-/

namespace Spec2Proof

/-- A cached vote entry, as built by the vote handlers in
`message-actions.tsx` (snake_case fields mirror `WorkspaceChatVote`). -/
structure WorkspaceChatVote where
  chat_id : String
  message_id : String
  is_upvoted : Bool
  user_id : String
deriving DecidableEq, Repr

/-- Vote direction: the `type: 'up'` and `type: 'down'` literals of the two
click handlers in `PureMessageActions`. -/
inductive VoteDirection where
  | up
  | down
deriving DecidableEq, Repr

/-- `true` exactly for the upvote handler, whose inserted entry has
`is_upvoted: true`; the downvote handler inserts `is_upvoted: false`. -/
def VoteDirection.isUp : VoteDirection → Bool
  | VoteDirection.up => true
  | VoteDirection.down => false

/-- The updater function passed to `mutate` for the key
`/api/vote?chatId=<chatId>` inside the `success` callback of `toast.promise`
in both vote handlers of `PureMessageActions`
(`src/src/components/message-actions.tsx`, lines 88-108 and 142-162): if the
cache is unfetched (`!currentVotes`) it returns the empty list; otherwise it
filters out any entry whose `message_id` equals the message id and appends a
new entry with `is_upvoted` = true (upvote handler) or false (downvote
handler). The two handlers are textually identical except for that literal
and the toast strings, so they are embedded once, parametrised by the
direction. -/
def voteCacheUpdater (chatId messageId userId : String) (direction : VoteDirection)
    (currentVotes : Option (List WorkspaceChatVote)) : List WorkspaceChatVote :=
  match currentVotes with
  | none => []
  | some votes =>
    let votesWithoutCurrent := votes.filter (fun v => v.message_id ≠ messageId)
    votesWithoutCurrent ++
      [{ chat_id := chatId, message_id := messageId,
         is_upvoted := direction.isUp, user_id := userId }]

/-- Observable steps performed by one vote click handler: issuing the PATCH
fetch, the toast.promise loading notice, the settling of the fetch promise,
the SWR cache write (`mutate`), and the success/error toasts. -/
inductive ClientEvent where
  | fetchPatch (chatId messageId : String) (direction : VoteDirection)
  | toastLoading (msg : String)
  | resolve (ok : Bool)
  | cacheMutate (key : String) (newValue : List WorkspaceChatVote)
  | toastSuccess (msg : String)
  | toastError (msg : String)
deriving DecidableEq, Repr

/-- `true` exactly on the promise-settling event. -/
def ClientEvent.isResolve : ClientEvent → Bool
  | ClientEvent.resolve _ => true
  | _ => false

/-- `true` exactly on a cache-write event. -/
def ClientEvent.isCacheMutate : ClientEvent → Bool
  | ClientEvent.cacheMutate _ _ => true
  | _ => false

/-- The `loading` toast text of the up/down handlers. -/
def loadingMsg : VoteDirection → String
  | VoteDirection.up => "Upvoting Response..."
  | VoteDirection.down => "Downvoting Response..."

/-- The string returned by the `success` callback of the up/down handlers. -/
def successMsg : VoteDirection → String
  | VoteDirection.up => "Upvoted Response!"
  | VoteDirection.down => "Downvoted Response!"

/-- The `error` toast text of the up/down handlers. -/
def failureMsg : VoteDirection → String
  | VoteDirection.up => "Failed to upvote response."
  | VoteDirection.down => "Failed to downvote response."

/-- The SWR cache key the handlers mutate. -/
def voteKey (chatId : String) : String := "/api/vote?chatId=" ++ chatId

/-- The event trace of one vote click in `PureMessageActions`, given whether
the PATCH fetch settles successfully (`ok`): the handler first issues the
fetch and registers `toast.promise` (loading notice), then the promise
settles; only on success does the `success` callback run `mutate` with
`voteCacheUpdater` and return the success toast string; on failure only the
error toast is shown. `cache` is the cached vote list at click time, from
which the `mutate` updater computes the new value. -/
def voteClickTrace (chatId messageId userId : String) (direction : VoteDirection)
    (cache : Option (List WorkspaceChatVote)) (ok : Bool) : List ClientEvent :=
  [ClientEvent.fetchPatch chatId messageId direction,
   ClientEvent.toastLoading (loadingMsg direction),
   ClientEvent.resolve ok] ++
  (if ok then
    [ClientEvent.cacheMutate (voteKey chatId)
       (voteCacheUpdater chatId messageId userId direction cache),
     ClientEvent.toastSuccess (successMsg direction)]
  else
    [ClientEvent.toastError (failureMsg direction)])

/-- Effect of one client event on the cached vote list: only `cacheMutate`
writes the cache. -/
def applyEvent (cache : Option (List WorkspaceChatVote)) :
    ClientEvent → Option (List WorkspaceChatVote)
  | ClientEvent.cacheMutate _ v => some v
  | ClientEvent.fetchPatch _ _ _ => cache
  | ClientEvent.toastLoading _ => cache
  | ClientEvent.resolve _ => cache
  | ClientEvent.toastSuccess _ => cache
  | ClientEvent.toastError _ => cache

/-- Folds a trace of client events over the cached vote list. -/
def applyEvents (cache : Option (List WorkspaceChatVote))
    (events : List ClientEvent) : Option (List WorkspaceChatVote) :=
  events.foldl applyEvent cache

/-- The cached vote list after one full vote click (trace applied to the
cache at click time). -/
def cacheAfterClick (chatId messageId userId : String) (direction : VoteDirection)
    (cache : Option (List WorkspaceChatVote)) (ok : Bool) :
    Option (List WorkspaceChatVote) :=
  applyEvents cache (voteClickTrace chatId messageId userId direction cache ok)

/-- Modelled from the spec: the cached vote for a message is the cache entry
whose `message_id` matches that message; its visible state is that entry's
`is_upvoted` (none when no entry exists). The consumer that performs this
lookup is outside `src/`. -/
def visibleVote (votes : List WorkspaceChatVote) (messageId : String) : Option Bool :=
  (votes.find? (fun v => v.message_id = messageId)).map (fun v => v.is_upvoted)

/-- The `disabled` prop of the upvote button in `PureMessageActions`:
`vote?.is_upvoted` — nullish (hence enabled) when no cached vote exists. -/
def upvoteDisabled : Option WorkspaceChatVote → Bool
  | none => false
  | some v => v.is_upvoted

/-- The `disabled` prop of the downvote button in `PureMessageActions`:
`vote && !vote.is_upvoted` — nullish (hence enabled) when no cached vote
exists. -/
def downvoteDisabled : Option WorkspaceChatVote → Bool
  | none => false
  | some v => !v.is_upvoted

/-- Message roles of the `ai` SDK `Message` type consumed by
`PureMessageActions` (the spec's data model lists user, assistant and
system; the SDK type also carries a data role). -/
inductive MessageRole where
  | system
  | user
  | assistant
  | data
deriving DecidableEq, Repr

/-- Embeds the early-return guards of `PureMessageActions`
(`src/src/components/message-actions.tsx`, lines 35-36):
`if (isLoading) return null; if (message.role === 'user') return null;` —
the copy/vote controls are rendered exactly when neither guard fires. -/
def rendersVoteControls (role : MessageRole) (isLoading : Bool) : Bool :=
  if isLoading then false
  else if role = MessageRole.user then false
  else true

/-- A server-side vote record as returned by the vote route
(`{chat_id, message_id, is_upvoted}`). -/
structure VoteRow where
  chat_id : String
  message_id : String
  is_upvoted : Bool
deriving DecidableEq, Repr

/-- The persistent state visible to the vote route: the ids of chats that
resolve for the authenticated caller, and the stored vote rows. -/
structure Db where
  chats : List String
  votes : List VoteRow
deriving DecidableEq, Repr

/-- Modelled from the spec: `getChatById` (imported from `@/data/user/chat`,
which is not under `src/`) resolves a chat id for the caller, yielding null
when the chat is not found or not owned. -/
def getChatById (db : Db) (id : String) : Option String :=
  db.chats.find? (fun c => c = id)

/-- Modelled from the spec: `getVotesByChatId` (from `@/data/user/chat`, not
under `src/`) returns the list of vote records for the chat. -/
def getVotesByChatId (db : Db) (id : String) : List VoteRow :=
  db.votes.filter (fun v => v.chat_id = id)

/-- Modelled from the spec: `voteMessage` (from `@/data/user/chat`, not
under `src/`) performs the upsert-by-natural-key (chatId, messageId) of
spec §3: any existing record for the key is replaced in place by a record
with `is_upvoted = (type == 'up')`. -/
def voteMessage (db : Db) (chatId messageId ty : String) : Db :=
  { db with
    votes :=
      db.votes.filter (fun v => ¬(v.chat_id = chatId ∧ v.message_id = messageId)) ++
        [{ chat_id := chatId, message_id := messageId, is_upvoted := ty = "up" }] }

/-- Body of an HTTP response of the vote route: plain text or a JSON list of
vote rows. -/
inductive ResponseBody where
  | text (s : String)
  | json (votes : List VoteRow)
deriving DecidableEq, Repr

/-- An HTTP response of the vote route. -/
structure HttpResponse where
  status : Nat
  body : ResponseBody
deriving DecidableEq, Repr

/-- Embeds `GET` of `src/src/app/api/vote/route.ts`. `searchParams.get`
yields null when the parameter is absent (modelled as `none`); the guard
`if (!chatId)` also fires on the empty string, which is falsy. The auth call
(`serverGetLoggedInUser`) is the excluded collaborator and has no observable
effect here. -/
def voteRouteGET (db : Db) (chatId : Option String) : HttpResponse :=
  match chatId with
  | none => { status := 400, body := ResponseBody.text "chatId is required" }
  | some cid =>
    if cid = "" then { status := 400, body := ResponseBody.text "chatId is required" }
    else
      match getChatById db cid with
      | none => { status := 404, body := ResponseBody.text "Chat not found" }
      | some _ => { status := 200, body := ResponseBody.json (getVotesByChatId db cid) }

/-- The destructured JSON body of a PATCH /api/vote request. A field absent
from the JSON destructures to undefined; the guard
`if (!chatId || !messageId || !type)` treats undefined and the empty string
alike (both falsy), so a missing field is modelled as `""`. -/
structure PatchBody where
  chatId : String
  messageId : String
  type : String
deriving DecidableEq, Repr

/-- Embeds `PATCH` of `src/src/app/api/vote/route.ts`: 400 when any of
chatId/messageId/type is falsy, 404 when the chat does not resolve,
otherwise `voteMessage` is called with the body's fields as given (the
`type` value is never checked against up or down) and 200 is returned. The
pair is (state after the call, response). -/
def voteRoutePATCH (db : Db) (b : PatchBody) : Db × HttpResponse :=
  if b.chatId = "" ∨ b.messageId = "" ∨ b.type = "" then
    (db, { status := 400, body := ResponseBody.text "messageId and type are required" })
  else
    match getChatById db b.chatId with
    | none => (db, { status := 404, body := ResponseBody.text "Chat not found" })
    | some _ =>
      (voteMessage db b.chatId b.messageId b.type,
       { status := 200, body := ResponseBody.text "Message voted" })

/-- The vote rows stored for one (chatId, messageId) natural key. -/
def votesForKey (votes : List VoteRow) (chatId messageId : String) : List VoteRow :=
  votes.filter (fun v => v.chat_id = chatId ∧ v.message_id = messageId)

/-- Observable effects of the `Chat` component's stream callbacks: an SWR
cache invalidation (`mutate(key)` with no updater) or an error toast. -/
inductive ChatEffect where
  | invalidateKey (key : String)
  | toastError (msg : String)
deriving DecidableEq, Repr

/-- Terminal and non-terminal events of one chat stream (spec §4.4: the
stream is terminated by a finish or error event, nothing else). -/
inductive StreamEvent where
  | delta (s : String)
  | finish
  | errorEvent
deriving DecidableEq, Repr

/-- Embeds the `useChat` callbacks registered by `Chat`
(`src/unnamed/part_002`): `onFinish` invalidates
`getChatHistoryPaginationKey(workspaceId)` and `onError` raises the toast
"An error occurred, please try again!". `getChatHistoryPaginationKey` comes
from `./sidebar-history`, which is not under `src/`, so the key derivation
is a parameter `keyFor` applied to the workspace id. -/
def chatCallbackEffects (keyFor : String → String) (workspaceId : String) :
    StreamEvent → List ChatEffect
  | StreamEvent.finish => [ChatEffect.invalidateKey (keyFor workspaceId)]
  | StreamEvent.errorEvent =>
      [ChatEffect.toastError "An error occurred, please try again!"]
  | StreamEvent.delta _ => []

/-- Modelled from the spec: the transport delivers the stream's events in
send order and the controller runs the registered callback of each event;
the effects of a stream are the callback effects in receipt order. -/
def chatStreamEffects (keyFor : String → String) (workspaceId : String)
    (events : List StreamEvent) : List ChatEffect :=
  (events.map (chatCallbackEffects keyFor workspaceId)).flatten

/-- C1 (counterexample): for the concrete failed upvote click on chat c1,
message m1 with fetched cache `[]`, the click trace contains no cache write
at all and the cache after the click is unchanged (`some []`), which differs
from the optimistic state `[entry]`: the cache is not mutated before the
PATCH resolves, and the update is conditioned on the request's success. -/
theorem vote_cache_not_optimistic_cex :
    ((voteClickTrace "c1" "m1" "u1" VoteDirection.up (some []) false).all
      (fun e => ! e.isCacheMutate)) = true ∧
    cacheAfterClick "c1" "m1" "u1" VoteDirection.up (some []) false = some [] ∧
    voteCacheUpdater "c1" "m1" "u1" VoteDirection.up (some []) ≠ [] := by
  decide

/-- C1 (amended): in every vote click, no cache write occurs before the PATCH
promise settles, and the cache after the click equals the updater's result
when the request succeeded and is unchanged when it failed: the cache update
runs in the `success` callback, after and conditioned on the request's
success. -/
theorem vote_cache_written_only_after_success
    (chatId messageId userId : String) (d : VoteDirection)
    (cache : Option (List WorkspaceChatVote)) (ok : Bool) :
    (((voteClickTrace chatId messageId userId d cache ok).takeWhile
        (fun e => ! e.isResolve)).all (fun e => ! e.isCacheMutate)) = true ∧
    cacheAfterClick chatId messageId userId d cache ok =
      (if ok then some (voteCacheUpdater chatId messageId userId d cache)
       else cache) := by
  cases ok <;>
    simp [voteClickTrace, cacheAfterClick, applyEvents, applyEvent,
      ClientEvent.isResolve, ClientEvent.isCacheMutate, List.takeWhile]

/-- C2 (counterexample): on an unfetched cache the updater returns the empty
list, not a one-entry list holding the new vote. -/
theorem unfetched_cache_vote_cex :
    voteCacheUpdater "c1" "m1" "u1" VoteDirection.up none = [] ∧
    voteCacheUpdater "c1" "m1" "u1" VoteDirection.up none ≠
      [{ chat_id := "c1", message_id := "m1", is_upvoted := true,
         user_id := "u1" }] := by
  decide

/-- C2 (amended): when the cached vote list is unfetched (`undefined`), the
vote handlers' updater returns the empty list and inserts nothing. -/
theorem unfetched_cache_vote_empty (chatId messageId userId : String)
    (d : VoteDirection) :
    voteCacheUpdater chatId messageId userId d none = [] := rfl

/-- C6: every vote click whose PATCH request fails shows the failure toast,
performs no cache write anywhere in its trace, and leaves the cached vote
list exactly as it was. -/
theorem vote_failure_no_cache_write (chatId messageId userId : String)
    (d : VoteDirection) (cache : Option (List WorkspaceChatVote)) :
    ClientEvent.toastError (failureMsg d) ∈
      voteClickTrace chatId messageId userId d cache false ∧
    ((voteClickTrace chatId messageId userId d cache false).all
      (fun e => ! e.isCacheMutate)) = true ∧
    cacheAfterClick chatId messageId userId d cache false = cache := by
  refine ⟨?_, ?_, ?_⟩ <;>
    simp [voteClickTrace, cacheAfterClick, applyEvents, applyEvent,
      ClientEvent.isCacheMutate]

/-- Helper: re-filtering an already filtered-and-extended vote list by the
same message key removes exactly the appended entry. -/
theorem filter_updated_eq (messageId : String) (e : WorkspaceChatVote)
    (he : e.message_id = messageId) (l : List WorkspaceChatVote) :
    (l.filter (fun v => v.message_id ≠ messageId) ++ [e]).filter
        (fun v => v.message_id ≠ messageId) =
      l.filter (fun v => v.message_id ≠ messageId) := by
  simp [List.filter_append, List.filter_filter, he]

/-- Helper: looking up the message key in a filtered-and-extended vote list
finds exactly the appended entry. -/
theorem find_in_updated (messageId : String) (e : WorkspaceChatVote)
    (he : e.message_id = messageId) (l : List WorkspaceChatVote) :
    (l.filter (fun v => v.message_id ≠ messageId) ++ [e]).find?
        (fun v => v.message_id = messageId) = some e := by
  induction l with
  | nil => simp [List.find?, he]
  | cons a t ih =>
    by_cases h : a.message_id = messageId
    · simpa [List.filter_cons, h] using ih
    · simpa [List.filter_cons, h, List.find?_cons] using ih

/-- Helper: applying the vote updater to any fetched list makes the visible
vote state of that message `some direction.isUp`. -/
theorem visibleVote_after_update (chatId messageId userId : String)
    (d : VoteDirection) (l : List WorkspaceChatVote) :
    visibleVote (voteCacheUpdater chatId messageId userId d (some l)) messageId =
      some d.isUp := by
  simp only [visibleVote, voteCacheUpdater]
  rw [find_in_updated messageId _ rfl l]
  rfl

/-- C5: the per-vote cache mutation is replace-by-key: applying the same
direction twice yields the same cached list (hence the same visible
isUpvoted state) as applying it once; an upvote makes the visible state
isUpvoted = true, and up then down then up restores that state. -/
theorem vote_updater_idempotent_invertible
    (chatId messageId userId : String) (d : VoteDirection)
    (l : List WorkspaceChatVote) :
    voteCacheUpdater chatId messageId userId d
        (some (voteCacheUpdater chatId messageId userId d (some l))) =
      voteCacheUpdater chatId messageId userId d (some l) ∧
    visibleVote (voteCacheUpdater chatId messageId userId d
        (some (voteCacheUpdater chatId messageId userId d (some l)))) messageId =
      visibleVote (voteCacheUpdater chatId messageId userId d (some l)) messageId ∧
    visibleVote (voteCacheUpdater chatId messageId userId VoteDirection.up (some l))
        messageId = some true ∧
    visibleVote (voteCacheUpdater chatId messageId userId VoteDirection.up
        (some (voteCacheUpdater chatId messageId userId VoteDirection.down
          (some (voteCacheUpdater chatId messageId userId VoteDirection.up
            (some l)))))) messageId = some true := by
  have idem :
      voteCacheUpdater chatId messageId userId d
          (some (voteCacheUpdater chatId messageId userId d (some l))) =
        voteCacheUpdater chatId messageId userId d (some l) := by
    simp only [voteCacheUpdater]
    rw [filter_updated_eq messageId _ rfl l]
  refine ⟨idem, by rw [idem], ?_, ?_⟩
  · simpa using visibleVote_after_update chatId messageId userId VoteDirection.up l
  · simpa using visibleVote_after_update chatId messageId userId VoteDirection.up _

/-- C8: the upvote control is disabled exactly when the cached vote for the
message exists with is_upvoted = true, the downvote control exactly when it
exists with is_upvoted = false, and with no cached vote both are enabled;
both values are computed from the cached vote alone. -/
theorem vote_disabled_state_spec (v : Option WorkspaceChatVote) :
    (upvoteDisabled v = true ↔ ∃ r, v = some r ∧ r.is_upvoted = true) ∧
    (downvoteDisabled v = true ↔ ∃ r, v = some r ∧ r.is_upvoted = false) ∧
    upvoteDisabled none = false ∧ downvoteDisabled none = false := by
  refine ⟨?_, ?_, rfl, rfl⟩ <;>
    cases v <;> simp [upvoteDisabled, downvoteDisabled]

/-- C10 (counterexample): with isLoading false and role system — neither
user nor assistant — the component renders the vote controls, so a vote
action issued through it need not target an assistant message. -/
theorem renders_controls_nonassistant_cex :
    rendersVoteControls MessageRole.system false = true ∧
    MessageRole.system ≠ MessageRole.user ∧
    MessageRole.system ≠ MessageRole.assistant := by
  decide

/-- C10 (amended): PureMessageActions renders the copy/vote controls exactly
when isLoading is false and the message role is not user; every vote action
issued through it therefore targets a non-user message of a completed turn,
though not necessarily an assistant message. -/
theorem renders_controls_iff (role : MessageRole) (isLoading : Bool) :
    rendersVoteControls role isLoading = true ↔
      isLoading = false ∧ role ≠ MessageRole.user := by
  cases isLoading <;> cases role <;> simp [rendersVoteControls]

/-- Helper: after removing every row of the (chatId, messageId) natural key
and appending one row of that key, the rows stored for the key are exactly
the appended row. -/
theorem votesForKey_after_upsert (chatId messageId : String) (e : VoteRow)
    (hc : e.chat_id = chatId) (hm : e.message_id = messageId)
    (l : List VoteRow) :
    votesForKey
        (l.filter (fun v => ¬(v.chat_id = chatId ∧ v.message_id = messageId)) ++
          [e]) chatId messageId = [e] := by
  simp [votesForKey, List.filter_append, List.filter_filter, hc, hm]

/-- C3: PATCH /vote returns 400 leaving the store unchanged when any body
field is missing, 404 leaving the store unchanged when the chat does not
resolve, and otherwise returns 200 with a plain status body after which the
store holds exactly one vote record for the (chatId, messageId) natural key,
carrying is_upvoted = (type = up): a repeat vote replaces the record in
place rather than adding a second one. -/
theorem patch_vote_route_spec (db : Db) (b : PatchBody) :
    (b.chatId = "" ∨ b.messageId = "" ∨ b.type = "" →
      voteRoutePATCH db b =
        (db, { status := 400,
               body := ResponseBody.text "messageId and type are required" })) ∧
    (b.chatId ≠ "" → b.messageId ≠ "" → b.type ≠ "" →
      getChatById db b.chatId = none →
      voteRoutePATCH db b =
        (db, { status := 404, body := ResponseBody.text "Chat not found" })) ∧
    (b.chatId ≠ "" → b.messageId ≠ "" → b.type ≠ "" →
      (getChatById db b.chatId).isSome →
      (voteRoutePATCH db b).2 =
          { status := 200, body := ResponseBody.text "Message voted" } ∧
        votesForKey (voteRoutePATCH db b).1.votes b.chatId b.messageId =
          [{ chat_id := b.chatId, message_id := b.messageId,
             is_upvoted := b.type = "up" }] ∧
        (voteRoutePATCH db b).1.chats = db.chats) := by
  refine ⟨?_, ?_, ?_⟩
  · intro h
    unfold voteRoutePATCH
    rw [if_pos h]
  · intro h1 h2 h3 hn
    unfold voteRoutePATCH
    rw [if_neg (by simp [h1, h2, h3]), hn]
  · intro h1 h2 h3 hs
    obtain ⟨c, hc⟩ := Option.isSome_iff_exists.mp hs
    unfold voteRoutePATCH
    rw [if_neg (by simp [h1, h2, h3]), hc]
    refine ⟨rfl, ?_, rfl⟩
    simpa [voteMessage] using
      votesForKey_after_upsert b.chatId b.messageId
        { chat_id := b.chatId, message_id := b.messageId,
          is_upvoted := b.type = "up" } rfl rfl db.votes

/-- C3 (witness): on a store owning chat c1 with no votes, an upvote PATCH
returns 200 and leaves exactly one record for (c1, m1) with is_upvoted true;
a subsequent downvote PATCH leaves exactly one record with is_upvoted false;
and a body with an empty chatId gets 400 with the store unchanged. -/
theorem patch_vote_route_spec_witness :
    (voteRoutePATCH ⟨["c1"], []⟩ ⟨"c1", "m1", "up"⟩).2 =
        { status := 200, body := ResponseBody.text "Message voted" } ∧
    votesForKey (voteRoutePATCH ⟨["c1"], []⟩ ⟨"c1", "m1", "up"⟩).1.votes
        "c1" "m1" =
        [{ chat_id := "c1", message_id := "m1", is_upvoted := true }] ∧
    votesForKey
        (voteRoutePATCH (voteRoutePATCH ⟨["c1"], []⟩ ⟨"c1", "m1", "up"⟩).1
          ⟨"c1", "m1", "down"⟩).1.votes "c1" "m1" =
        [{ chat_id := "c1", message_id := "m1", is_upvoted := false }] ∧
    voteRoutePATCH ⟨["c1"], []⟩ ⟨"", "m1", "up"⟩ =
        (⟨["c1"], []⟩,
         { status := 400,
           body := ResponseBody.text "messageId and type are required" }) := by
  have hup := (patch_vote_route_spec ⟨["c1"], []⟩ ⟨"c1", "m1", "up"⟩).2.2
    (by decide) (by decide) (by decide) (by decide)
  have hdown := (patch_vote_route_spec
      (voteRoutePATCH ⟨["c1"], []⟩ ⟨"c1", "m1", "up"⟩).1
      ⟨"c1", "m1", "down"⟩).2.2
    (by decide) (by decide) (by decide) (by decide)
  have h400 := (patch_vote_route_spec ⟨["c1"], []⟩ ⟨"", "m1", "up"⟩).1
    (Or.inl rfl)
  refine ⟨hup.1, ?_, ?_, h400⟩
  · simpa using hup.2.1
  · simpa using hdown.2.1

/-- C4: GET /vote returns 400 when the chatId query parameter is absent, 404
when the chat does not resolve for the caller, and otherwise 200 with the
chat's vote records — the empty list when the chat has zero votes. -/
theorem get_vote_route_spec (db : Db) (cid : String) :
    voteRouteGET db none =
        { status := 400, body := ResponseBody.text "chatId is required" } ∧
    (cid ≠ "" → getChatById db cid = none →
      voteRouteGET db (some cid) =
        { status := 404, body := ResponseBody.text "Chat not found" }) ∧
    (cid ≠ "" → (getChatById db cid).isSome →
      voteRouteGET db (some cid) =
        { status := 200, body := ResponseBody.json (getVotesByChatId db cid) }) ∧
    (cid ≠ "" → (getChatById db cid).isSome → getVotesByChatId db cid = [] →
      voteRouteGET db (some cid) =
        { status := 200, body := ResponseBody.json [] }) := by
  refine ⟨rfl, ?_, ?_, ?_⟩
  · intro h hn
    simp [voteRouteGET, h, hn]
  · intro h hs
    obtain ⟨c, hc⟩ := Option.isSome_iff_exists.mp hs
    simp [voteRouteGET, h, hc]
  · intro h hs hz
    obtain ⟨c, hc⟩ := Option.isSome_iff_exists.mp hs
    simp [voteRouteGET, h, hc, hz]

/-- C4 (witness): on a store owning chat c1 with no votes, GET without a
chatId gets 400, GET for the unknown chat c2 gets 404, and GET for c1 gets
200 with the empty list. -/
theorem get_vote_route_spec_witness :
    voteRouteGET ⟨["c1"], []⟩ none =
        { status := 400, body := ResponseBody.text "chatId is required" } ∧
    voteRouteGET ⟨["c1"], []⟩ (some "c2") =
        { status := 404, body := ResponseBody.text "Chat not found" } ∧
    voteRouteGET ⟨["c1"], []⟩ (some "c1") =
        { status := 200, body := ResponseBody.json [] } := by
  refine ⟨(get_vote_route_spec ⟨["c1"], []⟩ "c2").1,
    (get_vote_route_spec ⟨["c1"], []⟩ "c2").2.1 (by decide) (by decide),
    (get_vote_route_spec ⟨["c1"], []⟩ "c1").2.2.2 (by decide) (by decide)
      (by decide)⟩

/-- C9: a PATCH body whose three fields are non-empty strings passes the 400
guard whatever the type value is; when the chat resolves, the handler
returns 200 and forwards chatId, messageId and the unvalidated type value to
the vote upsert. -/
theorem patch_vote_type_unvalidated (db : Db) (b : PatchBody)
    (h1 : b.chatId ≠ "") (h2 : b.messageId ≠ "") (h3 : b.type ≠ "")
    (hs : (getChatById db b.chatId).isSome) :
    (voteRoutePATCH db b).2.status = 200 ∧
    (voteRoutePATCH db b).1 = voteMessage db b.chatId b.messageId b.type := by
  obtain ⟨c, hc⟩ := Option.isSome_iff_exists.mp hs
  unfold voteRoutePATCH
  rw [if_neg (by simp [h1, h2, h3]), hc]
  exact ⟨rfl, rfl⟩

/-- C9 (witness): the type value "sideways", which is neither up nor down,
passes the guard: on a store owning chat c1 the PATCH returns 200 and the
value is handed to the vote upsert as given. -/
theorem patch_vote_type_unvalidated_witness :
    (voteRoutePATCH ⟨["c1"], []⟩ ⟨"c1", "m1", "sideways"⟩).2.status = 200 ∧
    (voteRoutePATCH ⟨["c1"], []⟩ ⟨"c1", "m1", "sideways"⟩).1 =
      voteMessage ⟨["c1"], []⟩ "c1" "m1" "sideways" :=
  patch_vote_type_unvalidated ⟨["c1"], []⟩ ⟨"c1", "m1", "sideways"⟩
    (by decide) (by decide) (by decide) (by decide)

/-- C7: for any chat stream, if the finish event occurs the run's effects
include invalidating the history pagination key derived from the
workspaceId, and if the error event occurs they include the user-visible
failure toast. -/
theorem stream_terminal_effects (keyFor : String → String)
    (workspaceId : String) (events : List StreamEvent) :
    (StreamEvent.finish ∈ events →
      ChatEffect.invalidateKey (keyFor workspaceId) ∈
        chatStreamEffects keyFor workspaceId events) ∧
    (StreamEvent.errorEvent ∈ events →
      ChatEffect.toastError "An error occurred, please try again!" ∈
        chatStreamEffects keyFor workspaceId events) := by
  unfold chatStreamEffects
  constructor
  · intro h
    refine List.mem_flatten.mpr
      ⟨chatCallbackEffects keyFor workspaceId StreamEvent.finish, ?_, ?_⟩
    · exact List.mem_map_of_mem _ h
    · simp [chatCallbackEffects]
  · intro h
    refine List.mem_flatten.mpr
      ⟨chatCallbackEffects keyFor workspaceId StreamEvent.errorEvent, ?_, ?_⟩
    · exact List.mem_map_of_mem _ h
    · simp [chatCallbackEffects]

/-- C7 (witness): a stream delivering a delta and then finish yields the
invalidation of the key derived from workspace w1, and a stream ending in
the error event yields the failure toast. -/
theorem stream_terminal_effects_witness :
    ChatEffect.invalidateKey "w1" ∈
      chatStreamEffects (fun w => w) "w1"
        [StreamEvent.delta "hi", StreamEvent.finish] ∧
    ChatEffect.toastError "An error occurred, please try again!" ∈
      chatStreamEffects (fun w => w) "w1" [StreamEvent.errorEvent] :=
  ⟨(stream_terminal_effects (fun w => w) "w1"
      [StreamEvent.delta "hi", StreamEvent.finish]).1 (by decide),
   (stream_terminal_effects (fun w => w) "w1" [StreamEvent.errorEvent]).2
      (by decide)⟩

end Spec2Proof
